import Mathlib

/-!
Verification development for the yoga-wellness RAG backend.

Each Python component relevant to the checked properties is shallowly
embedded as an executable Lean definition, keeping the source's names
and control flow.  Machine floats carrying the exact decimal literals of
the source (severities, thresholds) are modelled as rationals; external
effects (tokenizer, HTTP calls, clocks, stores) are explicit parameters.
-/

namespace YogaRag

/-! ### String helpers

Python's `needle in hay`, `str.lower`, `str.startswith`, `str.strip`,
`str.split` modelled over `String.data : List Char`. -/

/-- `leadingMatch needle hay`: `needle` is a leading segment of `hay`. -/
def leadingMatch : List Char → List Char → Bool
  | [], _ => true
  | _ :: _, [] => false
  | a :: as, b :: bs => a == b && leadingMatch as bs

/-- `occursIn needle hay`: `needle` occurs contiguously inside `hay`
(Python `needle in hay`). -/
def occursIn (needle : List Char) : List Char → Bool
  | [] => leadingMatch needle []
  | b :: bs => leadingMatch needle (b :: bs) || occursIn needle bs

/-- Python `needle in hay` on strings. -/
def strContains (hay needle : String) : Bool :=
  occursIn needle.data hay.data

/-- Python `str.lower()` (ASCII case folding as in the keyword sets). -/
def pyLower (s : String) : String :=
  ⟨s.data.map Char.toLower⟩

/-- Python `s.startswith(pre)`. -/
def pyStartsWith (s pre : String) : Bool :=
  leadingMatch pre.data s.data

/-- Python whitespace test (`str.isspace` over the characters produced
by the regex class `\s` on ASCII text). -/
def isPySpace (c : Char) : Bool :=
  c == ' ' || c == '\t' || c == '\n' || c == '\r' || c == '\x0b' || c == '\x0c'

/-- Python `str.strip()`. -/
def pyStrip (s : String) : String :=
  ⟨((s.data.dropWhile isPySpace).reverse.dropWhile isPySpace).reverse⟩

/-- Python `str.split()` (split on whitespace runs, dropping empties). -/
def pySplitWsAux : List Char → List Char → List String
  | [], cur => if cur.isEmpty then [] else [⟨cur.reverse⟩]
  | c :: cs, cur =>
    if isPySpace c then
      if cur.isEmpty then pySplitWsAux cs [] else ⟨cur.reverse⟩ :: pySplitWsAux cs []
    else
      pySplitWsAux cs (c :: cur)

/-- Python `str.split()` with no separator argument. -/
def pySplitWs (s : String) : List String := pySplitWsAux s.data []

/-- Python `" ".join(l)`. -/
def joinSpace (l : List String) : String := String.intercalate " " l

/-! ### Schemas (backend/models/schemas.py) -/

/-- `SafetyFlagType` enum. -/
inductive SafetyFlagType where
  | MEDICAL_ADVICE
  | EMERGENCY
  | INAPPROPRIATE
  | DIAGNOSIS_REQUEST
  | PRESCRIPTION_REQUEST
  | TREATMENT_REQUEST
deriving DecidableEq, Repr

/-- `RiskLevel` enum. -/
inductive RiskLevel where
  | LOW
  | MEDIUM
  | HIGH
  | CRITICAL
deriving DecidableEq, Repr

/-- `ContentCategory` enum. -/
inductive ContentCategory where
  | YOGA
  | WELLNESS
  | MEDITATION
  | NUTRITION
  | EXERCISE
deriving DecidableEq, Repr

/-- `SafetyFlag` pydantic model; `severity` is a float in the source,
modelled as an exact rational. -/
structure SafetyFlag where
  type : SafetyFlagType
  severity : ℚ
  description : String
  mitigation_action : String
deriving DecidableEq, Repr

/-- `SafetyAssessment` pydantic model. -/
structure SafetyAssessment where
  flags : List SafetyFlag
  risk_level : RiskLevel
  allow_response : Bool
  required_disclaimers : List String
deriving DecidableEq, Repr

/-! ### Safety filter (backend/services/safety/filter.py) -/

/-- `self.emergency_keywords` (a Python set literal; membership tests do
not depend on iteration order). -/
def emergency_keywords : List String :=
  ["suicide", "kill myself", "harm myself", "emergency", "call 911",
   "unconscious", "bleeding", "heart failure", "heart attack", "stroke"]

/-- `self.pregnancy_keywords`. -/
def pregnancy_keywords : List String :=
  ["pregnant", "pregnancy", "trimester", "prenatal", "expecting baby",
   "baby bump", "morning sickness"]

/-- `self.medical_conditions`.  The source iterates a Python set and
breaks on the first hit; only the description text of the emitted flag
depends on iteration order, which no checked property inspects.  We fix
the literal's textual order. -/
def medical_conditions : List String :=
  ["hernia", "glaucoma", "high blood pressure", "hypertension", "surgery",
   "operation", "fracture", "arthritis", "sciatica", "slip disc", "slipped disc",
   "spinal injury", "cardiac", "cancer", "tumor"]

/-- The emergency flag appended in the emergency branch. -/
def emergencyFlag : SafetyFlag :=
  { type := .EMERGENCY
    severity := 1
    description := "Emergency keywords detected"
    mitigation_action := "Direct to emergency services immediately." }

/-- The pregnancy flag appended in the pregnancy branch. -/
def pregnancyFlag : SafetyFlag :=
  { type := .MEDICAL_ADVICE
    severity := mkRat 8 10
    description := "Pregnancy-related terms detected"
    mitigation_action := "Provide generic safe info only, warn to consult doctor." }

/-- The medical-condition flag for a detected condition. -/
def medicalFlag (condition : String) : SafetyFlag :=
  { type := .MEDICAL_ADVICE
    severity := mkRat 7 10
    description := "Medical condition detected: " ++ condition
    mitigation_action := "Warn to consult doctor/therapist. Do not prescribe." }

/-- Disclaimer returned by the emergency branch. -/
def emergencyDisclaimer : String :=
  "Please call emergency services immediately if this is a medical emergency."

/-- Python `max(f.severity for f in flags)` (the source only evaluates it
on non-empty `flags`; the `[]` case is given the neutral value 0). -/
def maxSeverity : List SafetyFlag → ℚ
  | [] => 0
  | f :: fs => fs.foldl (fun acc g => max acc g.severity) f.severity

/-- Steps 2–3 of `evaluate_query` (pregnancy check, then medical-condition
check with `break` on the first hit, modelled by `find?`). -/
def detectFlags (query_lower : String) : List SafetyFlag :=
  let flags0 : List SafetyFlag :=
    if pregnancy_keywords.any (fun term => strContains query_lower term) then
      [pregnancyFlag]
    else []
  match medical_conditions.find? (fun c => strContains query_lower c) with
  | some c => flags0 ++ [medicalFlag c]
  | none => flags0

/-- The "Determine overall risk" tail of `evaluate_query` (aggregation of
the collected flags into the returned assessment). -/
def aggregate (flags : List SafetyFlag) : SafetyAssessment :=
  if flags.isEmpty then
    { flags := flags, risk_level := .LOW, allow_response := true,
      required_disclaimers := [] }
  else
    let s := maxSeverity flags
    let risk_level : RiskLevel :=
      if s ≥ mkRat 9 10 then .CRITICAL
      else if s ≥ mkRat 7 10 then .HIGH
      else if s ≥ mkRat 4 10 then .MEDIUM
      else .LOW
    let allow_response : Bool := !(s ≥ mkRat 9 10)
    let base : List String :=
      if s ≥ mkRat 9 10 then []
      else if s ≥ mkRat 7 10 then
        ["Please consult a doctor or certified yoga therapist before attempting these practices."]
      else if s ≥ mkRat 4 10 then
        ["Practice with caution and listen to your body."]
      else []
    let disclaimers : List String :=
      base ++
        (if flags.any (fun f => pyStartsWith f.description "Pregnancy") then
          ["Prenatal yoga should be practiced under expert guidance."]
        else [])
    { flags := flags
      risk_level := risk_level
      allow_response := allow_response
      required_disclaimers := disclaimers }

/-- `SafetyFilter.evaluate_query`. -/
def evaluate_query (query : String) : SafetyAssessment :=
  let query_lower := pyLower query
  if emergency_keywords.any (fun term => strContains query_lower term) then
    { flags := [emergencyFlag]
      risk_level := .CRITICAL
      allow_response := false
      required_disclaimers := [emergencyDisclaimer] }
  else
    aggregate (detectFlags query_lower)

/-- The risk level the spec's severity thresholds dictate. -/
def riskOfSeverity (s : ℚ) : RiskLevel :=
  if s ≥ mkRat 9 10 then .CRITICAL
  else if s ≥ mkRat 7 10 then .HIGH
  else if s ≥ mkRat 4 10 then .MEDIUM
  else .LOW

/-- **C1.** A query containing (case-insensitively) any configured emergency
term is assessed with exactly one EMERGENCY flag of severity 1.0, risk
CRITICAL, `allow_response = false`, and the single emergency disclaimer; the
emergency branch returns at once, so no pregnancy or medical-condition flag
appears. -/
theorem emergency_query_short_circuits (q : String)
    (h : emergency_keywords.any (fun term => strContains (pyLower q) term) = true) :
    evaluate_query q =
      { flags := [emergencyFlag]
        risk_level := .CRITICAL
        allow_response := false
        required_disclaimers := [emergencyDisclaimer] } ∧
    emergencyFlag.type = .EMERGENCY ∧ emergencyFlag.severity = 1 := by
  refine ⟨?_, rfl, rfl⟩
  unfold evaluate_query
  simp [h]

/-- Witness for `emergency_query_short_circuits` at the query
"I think I'm having a heart attack". -/
theorem emergency_query_short_circuits_witness :
    evaluate_query "I think I'm having a heart attack" =
      { flags := [emergencyFlag]
        risk_level := .CRITICAL
        allow_response := false
        required_disclaimers := [emergencyDisclaimer] } :=
  (emergency_query_short_circuits "I think I'm having a heart attack" (by decide)).1

/-- `aggregate` returns its input flags unchanged. -/
theorem aggregate_flags (flags : List SafetyFlag) :
    (aggregate flags).flags = flags := by
  cases flags <;> rfl

/-- The aggregation tail of `evaluate_query` honours the severity
thresholds, for any flag list. -/
theorem aggregate_risk (flags : List SafetyFlag) :
    (aggregate flags).risk_level = riskOfSeverity (maxSeverity flags) ∧
    ((aggregate flags).allow_response = true ↔ maxSeverity flags < mkRat 9 10) ∧
    ((aggregate flags).allow_response = false →
        (aggregate flags).risk_level = .CRITICAL) := by
  cases flags with
  | nil => exact ⟨by decide, by decide, fun h => by simp [aggregate] at h⟩
  | cons f fs =>
    have hrisk : (aggregate (f :: fs)).risk_level
        = riskOfSeverity (maxSeverity (f :: fs)) := rfl
    have hallow : (aggregate (f :: fs)).allow_response
        = !decide (maxSeverity (f :: fs) ≥ mkRat 9 10) := rfl
    refine ⟨hrisk, ?_, ?_⟩
    · rw [hallow]
      simp only [Bool.not_eq_true', decide_eq_false_iff_not, not_le]
    · intro h
      rw [hallow] at h
      simp only [Bool.not_eq_false', decide_eq_true_eq] at h
      rw [hrisk]
      unfold riskOfSeverity
      rw [if_pos h]

/-- **C2.** For every query, the assessment's risk level is exactly the
threshold function of the maximum flag severity (0 when no flags, which gives
LOW and allows the response), `allow_response` holds iff that maximum is
below 0.9, and a blocked response forces CRITICAL risk. -/
theorem risk_level_matches_severity_thresholds (q : String) :
    (evaluate_query q).risk_level
        = riskOfSeverity (maxSeverity (evaluate_query q).flags) ∧
    ((evaluate_query q).allow_response = true
        ↔ maxSeverity (evaluate_query q).flags < mkRat 9 10) ∧
    ((evaluate_query q).allow_response = false →
        (evaluate_query q).risk_level = .CRITICAL) := by
  unfold evaluate_query
  cases hE : emergency_keywords.any (fun term => strContains (pyLower q) term) with
  | true => rw [if_pos hE]; exact ⟨by decide, by decide, fun _ => by decide⟩
  | false =>
    rw [if_neg (by simp [hE]), aggregate_flags]
    exact aggregate_risk _

/-- Witness for `risk_level_matches_severity_thresholds` at a pregnancy
query. -/
theorem risk_level_matches_severity_thresholds_witness :
    (evaluate_query "I am pregnant").risk_level
        = riskOfSeverity (maxSeverity (evaluate_query "I am pregnant").flags) :=
  (risk_level_matches_severity_thresholds "I am pregnant").1

/-! ### Retrieval engine (backend/services/retrieval/engine.py)

`retrieve_relevant_chunks` is embedded as the pure formatting/filtering pass
it performs on the backend search results; the embedding call and vector
search are oracles (the search outcome is a parameter).  Wall-clock reads
(`datetime.utcnow()`) are an abstract tick `now : Nat`. -/

/-- `ChunkMetadata` pydantic model; `created_at` is an abstract tick. -/
structure ChunkMetadata where
  document_id : String
  chunk_index : Nat
  source : String
  category : ContentCategory
  tokens : Nat
  created_at : Nat
deriving DecidableEq, Repr

/-- `Chunk` pydantic model (the optional `embedding` field is never set on
the retrieval path and is omitted). -/
structure Chunk where
  id : String
  content : String
  metadata : ChunkMetadata
deriving DecidableEq, Repr

/-- `RetrievalResult` pydantic model. -/
structure RetrievalResult where
  chunk : Chunk
  similarity_score : ℚ
  relevance_rank : Nat
deriving DecidableEq, Repr

/-- The metadata dictionary attached to a backend search hit: each field the
engine reads, present or absent. -/
structure SearchResultMeta where
  document_id : Option String
  chunk_index : Option Nat
  source : Option String
  category : Option String
  tokens : Option Nat
  created_at : Option Nat
deriving DecidableEq, Repr

/-- `SearchResult` (backend/services/retrieval/vector_db.py). -/
structure SearchResult where
  chunk_id : String
  score : ℚ
  content : String
  metadata : SearchResultMeta
deriving DecidableEq, Repr

/-- Python `ContentCategory(category_str)`: parse, `ValueError` as `none`. -/
def categoryFromString (s : String) : Option ContentCategory :=
  if s = "YOGA" then some .YOGA
  else if s = "WELLNESS" then some .WELLNESS
  else if s = "MEDITATION" then some .MEDITATION
  else if s = "NUTRITION" then some .NUTRITION
  else if s = "EXERCISE" then some .EXERCISE
  else none

/-- The characters of `s` before the first occurrence of `marker`
(`s.split(marker)[0]`). -/
def beforeMarkerAux (marker : List Char) : List Char → List Char
  | [] => []
  | c :: cs =>
    if leadingMatch marker (c :: cs) then [] else c :: beforeMarkerAux marker cs

/-- `chunk_id.split('_chunk_')[0] if '_chunk_' in chunk_id else chunk_id`. -/
def defaultDocumentId (chunk_id : String) : String :=
  if strContains chunk_id "_chunk_" then ⟨beforeMarkerAux "_chunk_".data chunk_id.data⟩
  else chunk_id

/-- Hydration of one backend hit into a `RetrievalResult` (the body of the
formatting loop of `retrieve_relevant_chunks`, defaults included). -/
def mkRetrievalResult (now : Nat) (res : SearchResult) (rank : Nat) :
    RetrievalResult :=
  let document_id := res.metadata.document_id.getD (defaultDocumentId res.chunk_id)
  let chunk_index := res.metadata.chunk_index.getD 0
  let source := res.metadata.source.getD "unknown"
  let category :=
    (categoryFromString (res.metadata.category.getD "WELLNESS")).getD .WELLNESS
  let tokens :=
    res.metadata.tokens.getD (13 * (pySplitWs res.content).length / 10)
  let created_at := res.metadata.created_at.getD now
  { chunk :=
      { id := res.chunk_id
        content := res.content
        metadata :=
          { document_id := document_id, chunk_index := chunk_index,
            source := source, category := category, tokens := tokens,
            created_at := created_at } }
    similarity_score := res.score
    relevance_rank := rank }

/-- The "Format and filter results" loop: drop hits below `min_similarity`,
hydrate the rest, and hand out ranks from a running counter. -/
def formatResults (min_similarity : ℚ) (now : Nat) :
    List SearchResult → Nat → List RetrievalResult
  | [], _ => []
  | res :: rest, rank =>
    if res.score < min_similarity then
      formatResults min_similarity now rest rank
    else
      mkRetrievalResult now res rank ::
        formatResults min_similarity now rest (rank + 1)

/-- The backend hits actually iterated: a search error is replaced by the
empty result list (`search_results = []` in the `except` arm). -/
def searchList (searchOutcome : Except String (List SearchResult)) :
    List SearchResult :=
  match searchOutcome with
  | .ok l => l
  | .error _ => []

/-- `RetrievalEngine.retrieve_relevant_chunks` given the backend search
outcome. -/
def retrieve_relevant_chunks (searchOutcome : Except String (List SearchResult))
    (min_similarity : ℚ) (now : Nat) : List RetrievalResult :=
  formatResults min_similarity now (searchList searchOutcome) 1

/-! ### Response generation (backend/services/generation/service.py)

The two LLM clients are oracles: a flag saying whether the client is
configured and the outcome of its `generate` call.  The prompt string the
source builds feeds only those calls, so it does not appear in the model. -/

/-- Outcomes of the configured LLM clients for one request. -/
structure LLMEnv where
  nvidiaConfigured : Bool
  nvidiaOutcome : Except String String
  openaiConfigured : Bool
  openaiOutcome : Except String String
deriving Repr

/-- `SourceCitation` pydantic model. -/
structure SourceCitation where
  source : String
  chunk_id : String
  relevance_score : ℚ
deriving DecidableEq, Repr

/-- `GeneratedResponse` pydantic model. -/
structure GeneratedResponse where
  content : String
  sources : List SourceCitation
  confidence : ℚ
  safety_notices : List String
deriving DecidableEq, Repr

/-- The canned apology used on LLM failure. -/
def apologyContent : String :=
  "I apologize, but I am unable to generate a detailed response at the moment due to a technical issue. Please try again."

/-- Python slice `s[:n]`. -/
def takeChars (n : Nat) (s : String) : String := ⟨s.data.take n⟩

/-- The citation built for one retrieval result. -/
def citationOf (result : RetrievalResult) : SourceCitation :=
  { source := result.chunk.metadata.source
    chunk_id := result.chunk.id
    relevance_score := result.similarity_score }

/-- `ResponseGenerator.generate_response`. -/
def generate_response (env : LLMEnv) (query : String)
    (context : List RetrievalResult)
    (safety_assessment : Option SafetyAssessment) : GeneratedResponse :=
  let contentConf : String × ℚ :=
    if env.nvidiaConfigured then
      match env.nvidiaOutcome with
      | .ok text => (text, 1)
      | .error _ =>
        if env.openaiConfigured then
          match env.openaiOutcome with
          | .ok text => (text, 1)
          | .error _ => (apologyContent, 0)
        else (apologyContent, 0)
    else if env.openaiConfigured then
      match env.openaiOutcome with
      | .ok text => (text, 1)
      | .error _ => (apologyContent, 0)
    else
      let base := "**[MOCK RESPONSE]**\n\nBased on your query '" ++ query ++
        "', here is some information from our knowledge base:\n\n"
      match context with
      | [] => (base ++ "No relevant information found in the knowledge base.", 0)
      | c :: _ =>
        (base ++ takeChars 200 c.chunk.content ++
          "...\n\n(Note: LLM is not configured, showing raw context excerpt)", 1)
  let citations := context.map citationOf
  let safety_notices : List String :=
    match safety_assessment with
    | some sa =>
      if !sa.allow_response && !sa.flags.isEmpty then sa.required_disclaimers
      else []
    | none => []
  { content := contentConf.1
    sources := citations
    confidence := contentConf.2
    safety_notices := safety_notices }

/-! ### Request orchestrator (backend/api/routes.py, `ask_question`)

UUIDs, wall-clock reads and the downstream service outcomes are supplied by
an environment record; the handler body is embedded as a pure function from
(request, environment) to the HTTP-200 `QueryResponse` plus its observable
effects (which services were invoked, which background tasks were queued). -/

/-- `QueryRequest` pydantic model (optional fields as options). -/
structure QueryRequest where
  query : String
  max_chunks : Option Nat
  min_similarity : Option ℚ
  user_id : Option String
  session_id : Option String
deriving DecidableEq, Repr

/-- `QueryResponse` pydantic model. -/
structure QueryResponse where
  query : String
  response : GeneratedResponse
  retrieval_results : List RetrievalResult
  safety_assessment : SafetyAssessment
  processing_time_ms : Nat
  session_id : String
deriving DecidableEq, Repr

/-- `SafetyIncident` pydantic model (fields the route populates). -/
structure SafetyIncident where
  id : String
  session_id : String
  incident_type : SafetyFlagType
  severity : RiskLevel
  query : String
  flags : List SafetyFlag
deriving DecidableEq, Repr

/-- `UserInteractionLog` pydantic model (fields the route populates;
`feedback` is always `None` there and is omitted). -/
structure UserInteractionLog where
  query_id : String
  user_id : String
  timestamp : Nat
  query : String
  retrieved_chunks : List String
  response_content : String
  processing_time_ms : Nat
  safety_flags : List SafetyFlag
deriving DecidableEq, Repr

/-- A background task queued with `background_tasks.add_task`. -/
inductive LogTask where
  | safetyIncident (incident : SafetyIncident)
  | interaction (log : UserInteractionLog)
deriving DecidableEq, Repr

/-- Observable effects of one `ask_question` call: how many times the
retrieval engine and the response generator were invoked, and the queued
background tasks in order. -/
structure AskEffects where
  retrievalCalls : Nat
  generatorCalls : Nat
  tasks : List LogTask
deriving DecidableEq, Repr

/-- Environment of one `ask_question` call: generated ids, clock readings,
and the outcomes of the downstream calls were they to be made. -/
structure AskEnv where
  queryId : String
  freshSessionId : String
  startTime : Nat
  elapsedMs : Nat
  retrieveOutcome : Nat → ℚ → Except String (List RetrievalResult)
  llm : LLMEnv

/-- Python `request.max_chunks or 5` (`0` is falsy). -/
def effectiveMaxResults (req : QueryRequest) : Nat :=
  match req.max_chunks with
  | some n => if n = 0 then 5 else n
  | none => 5

/-- Python `request.min_similarity or 0.7` (`0.0` is falsy). -/
def effectiveMinSimilarity (req : QueryRequest) : ℚ :=
  match req.min_similarity with
  | some v => if v = 0 then mkRat 7 10 else v
  | none => mkRat 7 10

/-- The chunk list the route proceeds with: the retrieval call's result, or
no chunks when the call raised (the route's `except` arm). -/
def retrievedChunks (req : QueryRequest) (env : AskEnv) : List RetrievalResult :=
  match env.retrieveOutcome (effectiveMaxResults req) (effectiveMinSimilarity req) with
  | .ok l => l
  | .error _ => []

/-- Python `request.session_id or str(uuid.uuid4())` (`""` is falsy). -/
def sessionIdOf (req : QueryRequest) (env : AskEnv) : String :=
  match req.session_id with
  | some s => if s = "" then env.freshSessionId else s
  | none => env.freshSessionId

/-- `ask_question`.  The safety filter is total here, so the permissive
fallback `except` arm around it is unreachable; retrieval errors fall back
to no chunks exactly as in the route's `except` arm. -/
def ask_question (req : QueryRequest) (env : AskEnv) :
    QueryResponse × AskEffects :=
  let safety_assessment := evaluate_query req.query
  let session_id := sessionIdOf req env
  if !safety_assessment.allow_response then
    let incident : SafetyIncident :=
      { id := env.queryId
        session_id := session_id
        incident_type := ((safety_assessment.flags.head?).map (·.type)).getD
          .MEDICAL_ADVICE
        severity := safety_assessment.risk_level
        query := req.query
        flags := safety_assessment.flags }
    let blocked_response : GeneratedResponse :=
      { content := "I cannot answer this query due to safety guidelines. " ++
          joinSpace safety_assessment.required_disclaimers
        sources := []
        confidence := 0
        safety_notices := safety_assessment.required_disclaimers }
    ({ query := req.query
       response := blocked_response
       retrieval_results := []
       safety_assessment := safety_assessment
       processing_time_ms := env.elapsedMs
       session_id := session_id },
     { retrievalCalls := 0, generatorCalls := 0,
       tasks := [.safetyIncident incident] })
  else
    let retrieved_chunks : List RetrievalResult := retrievedChunks req env
    let generated_response :=
      generate_response env.llm req.query retrieved_chunks
        (some safety_assessment)
    let log : UserInteractionLog :=
      { query_id := env.queryId
        user_id := req.user_id.getD "anonymous"
        timestamp := env.startTime
        query := req.query
        retrieved_chunks := retrieved_chunks.map (fun r => r.chunk.id)
        response_content := generated_response.content
        processing_time_ms := env.elapsedMs
        safety_flags := safety_assessment.flags }
    ({ query := req.query
       response := generated_response
       retrieval_results := retrieved_chunks
       safety_assessment := safety_assessment
       processing_time_ms := env.elapsedMs
       session_id := session_id },
     { retrievalCalls := 1, generatorCalls := 1,
       tasks := [.interaction log] })

/-! ### Theorems: retrieval result list shape (C4) -/

/-- Every kept result's score clears the threshold. -/
theorem formatResults_score_ge (ms : ℚ) (now : Nat) :
    ∀ (l : List SearchResult) (k : Nat) (r : RetrievalResult),
      r ∈ formatResults ms now l k → ms ≤ r.similarity_score := by
  intro l
  induction l with
  | nil => intro k r h; simp [formatResults] at h
  | cons res rest ih =>
    intro k r h
    unfold formatResults at h
    by_cases hs : res.score < ms
    · rw [if_pos hs] at h
      exact ih k r h
    · rw [if_neg hs] at h
      rcases List.mem_cons.mp h with h1 | h2
      · rw [h1]; exact not_lt.mp hs
      · exact ih (k + 1) r h2

/-- The handed-out ranks are consecutive from the starting counter. -/
theorem formatResults_ranks (ms : ℚ) (now : Nat) :
    ∀ (l : List SearchResult) (k : Nat),
      (formatResults ms now l k).map (fun r => r.relevance_rank)
        = List.range' k (formatResults ms now l k).length := by
  intro l
  induction l with
  | nil => intro k; rfl
  | cons res rest ih =>
    intro k
    unfold formatResults
    by_cases hs : res.score < ms
    · rw [if_pos hs]; exact ih k
    · rw [if_neg hs]
      simp only [List.map_cons, List.length_cons, ih (k + 1), List.range'_succ]
      rfl

/-- Kept results carry the score of some backend hit. -/
theorem formatResults_mem_score (ms : ℚ) (now : Nat) :
    ∀ (l : List SearchResult) (k : Nat) (r : RetrievalResult),
      r ∈ formatResults ms now l k →
        ∃ res ∈ l, r.similarity_score = res.score := by
  intro l
  induction l with
  | nil => intro k r h; simp [formatResults] at h
  | cons res rest ih =>
    intro k r h
    unfold formatResults at h
    by_cases hs : res.score < ms
    · rw [if_pos hs] at h
      rcases ih k r h with ⟨res2, hmem, heq⟩
      exact ⟨res2, List.mem_cons_of_mem _ hmem, heq⟩
    · rw [if_neg hs] at h
      rcases List.mem_cons.mp h with h1 | h2
      · exact ⟨res, List.mem_cons_self _ _, by rw [h1]; rfl⟩
      · rcases ih (k + 1) r h2 with ⟨res2, hmem, heq⟩
        exact ⟨res2, List.mem_cons_of_mem _ hmem, heq⟩

/-- When the backend list is sorted by non-increasing score, so is the
formatted output. -/
theorem formatResults_sorted (ms : ℚ) (now : Nat) :
    ∀ (l : List SearchResult),
      l.Pairwise (fun a b => b.score ≤ a.score) →
      ∀ k : Nat,
        (formatResults ms now l k).Pairwise
          (fun a b => b.similarity_score ≤ a.similarity_score) := by
  intro l
  induction l with
  | nil => intro _ k; simp [formatResults]
  | cons res rest ih =>
    intro hl k
    rcases List.pairwise_cons.mp hl with ⟨hres, hrest⟩
    unfold formatResults
    by_cases hs : res.score < ms
    · rw [if_pos hs]; exact ih hrest k
    · rw [if_neg hs]
      refine List.pairwise_cons.mpr ⟨?_, ih hrest (k + 1)⟩
      intro r hr
      rcases formatResults_mem_score ms now rest (k + 1) r hr with ⟨res2, hmem, heq⟩
      show r.similarity_score ≤ res.score
      rw [heq]
      exact hres res2 hmem

/-- Keeping only ids and scores, the output is exactly the backend hits
that clear the threshold, in backend order (ties included). -/
theorem formatResults_content (ms : ℚ) (now : Nat) :
    ∀ (l : List SearchResult) (k : Nat),
      (formatResults ms now l k).map (fun r => (r.chunk.id, r.similarity_score))
        = (l.filter (fun res => !decide (res.score < ms))).map
            (fun res => (res.chunk_id, res.score)) := by
  intro l
  induction l with
  | nil => intro k; rfl
  | cons res rest ih =>
    intro k
    unfold formatResults
    by_cases hs : res.score < ms
    · rw [if_pos hs]
      rw [List.filter_cons_of_neg (by simp [hs])]
      exact ih k
    · rw [if_neg hs]
      rw [List.filter_cons_of_pos (by simp [hs])]
      simp only [List.map_cons, ih (k + 1)]
      rfl

/-- **C4.** Under the vector-database contract that search results arrive
sorted by non-increasing score, `retrieve_relevant_chunks` returns a list
whose scores all clear `min_similarity` and are non-increasing, whose
relevance ranks are exactly `1..n`, and which preserves the backend's
order (so exact ties keep backend order). -/
theorem retrieval_results_well_formed
    (searchOutcome : Except String (List SearchResult)) (ms : ℚ) (now : Nat)
    (hsorted : (searchList searchOutcome).Pairwise (fun a b => b.score ≤ a.score)) :
    (∀ r ∈ retrieve_relevant_chunks searchOutcome ms now,
        ms ≤ r.similarity_score) ∧
    (retrieve_relevant_chunks searchOutcome ms now).map (fun r => r.relevance_rank)
        = List.range' 1 (retrieve_relevant_chunks searchOutcome ms now).length ∧
    (retrieve_relevant_chunks searchOutcome ms now).Pairwise
        (fun a b => b.similarity_score ≤ a.similarity_score) ∧
    (retrieve_relevant_chunks searchOutcome ms now).map
        (fun r => (r.chunk.id, r.similarity_score))
      = ((searchList searchOutcome).filter (fun res => !decide (res.score < ms))).map
          (fun res => (res.chunk_id, res.score)) :=
  ⟨fun r hr => formatResults_score_ge ms now (searchList searchOutcome) 1 r hr,
   formatResults_ranks ms now (searchList searchOutcome) 1,
   formatResults_sorted ms now (searchList searchOutcome) hsorted 1,
   formatResults_content ms now (searchList searchOutcome) 1⟩

/-- A metadata record with every field absent. -/
def emptyMeta : SearchResultMeta :=
  { document_id := none, chunk_index := none, source := none,
    category := none, tokens := none, created_at := none }

/-- Three backend hits, sorted, one below the 0.7 threshold. -/
def sampleSearchOutcome : Except String (List SearchResult) :=
  .ok
    [{ chunk_id := "doc1_chunk_0", score := mkRat 9 10,
       content := "mountain pose basics", metadata := emptyMeta },
     { chunk_id := "doc1_chunk_1", score := mkRat 8 10,
       content := "standing posture", metadata := emptyMeta },
     { chunk_id := "doc2_chunk_0", score := mkRat 5 10,
       content := "breathing", metadata := emptyMeta }]

/-- Witness for `retrieval_results_well_formed` on a concrete sorted
backend result list: the two kept hits get ranks 1 and 2. -/
theorem retrieval_results_well_formed_witness :
    (retrieve_relevant_chunks sampleSearchOutcome (mkRat 7 10) 0).map
        (fun r => r.relevance_rank)
      = List.range' 1
          (retrieve_relevant_chunks sampleSearchOutcome (mkRat 7 10) 0).length :=
  (retrieval_results_well_formed sampleSearchOutcome (mkRat 7 10) 0 (by decide)).2.1

/-! ### Theorems: orchestrator blocked path (C3) and LLM failure (C9) -/

/-- **C3.** When the safety assessment blocks the response, the `/ask`
handler returns (as HTTP 200) a refusal whose content is the fixed prefix
followed by the required disclaimers joined by single spaces, with no
retrieval results, without invoking the retrieval engine or the response
generator, and queues exactly one safety-incident background task. -/
theorem blocked_query_refusal (req : QueryRequest) (env : AskEnv)
    (h : (evaluate_query req.query).allow_response = false) :
    (ask_question req env).1.response.content
        = "I cannot answer this query due to safety guidelines. " ++
          joinSpace (evaluate_query req.query).required_disclaimers ∧
    (ask_question req env).1.retrieval_results = [] ∧
    (ask_question req env).2.retrievalCalls = 0 ∧
    (ask_question req env).2.generatorCalls = 0 ∧
    (∃ incident, (ask_question req env).2.tasks
        = [LogTask.safetyIncident incident]) := by
  simp only [ask_question, h, Bool.not_false, eq_self_iff_true, if_true]
  exact ⟨trivial, trivial, trivial, trivial, ⟨_, rfl⟩⟩

/-- A fully stubbed environment used by concrete runs of the handler. -/
def sampleEnv : AskEnv :=
  { queryId := "qid-1"
    freshSessionId := "sess-1"
    startTime := 0
    elapsedMs := 3
    retrieveOutcome := fun _ _ => .ok []
    llm :=
      { nvidiaConfigured := false, nvidiaOutcome := .error "off"
        openaiConfigured := false, openaiOutcome := .error "off" } }

/-- Witness for `blocked_query_refusal` on an emergency query. -/
theorem blocked_query_refusal_witness :
    (ask_question
        { query := "I am bleeding badly", max_chunks := none,
          min_similarity := none, user_id := none, session_id := none }
        sampleEnv).2.retrievalCalls = 0 :=
  (blocked_query_refusal
    { query := "I am bleeding badly", max_chunks := none,
      min_similarity := none, user_id := none, session_id := none }
    sampleEnv (by decide)).2.2.1

/-- **C9 (amended).** When the query passes the safety gate, the NVIDIA LLM
client is configured but its call fails, and no OpenAI fallback is
configured, the handler still returns an HTTP-200 response whose content is
the canned apology with confidence 0.0, whose citation list has one entry
per retrieved chunk (so it is empty exactly when retrieval returned
nothing), and still queues exactly one interaction-log task. -/
theorem llm_failure_apology (req : QueryRequest) (env : AskEnv) (e : String)
    (hallow : (evaluate_query req.query).allow_response = true)
    (hnv : env.llm.nvidiaConfigured = true)
    (herr : env.llm.nvidiaOutcome = Except.error e)
    (hoa : env.llm.openaiConfigured = false) :
    (ask_question req env).1.response.content = apologyContent ∧
    (ask_question req env).1.response.confidence = 0 ∧
    (ask_question req env).1.response.sources
        = (retrievedChunks req env).map citationOf ∧
    (∃ log, (ask_question req env).2.tasks = [LogTask.interaction log]) := by
  simp only [ask_question, hallow, Bool.not_true, Bool.false_eq_true, if_false,
    generate_response, hnv, herr, hoa, eq_self_iff_true, if_true]
  exact ⟨trivial, trivial, trivial, ⟨_, rfl⟩⟩

/-- One concrete retrieved chunk for the C9 runs. -/
def cex9Chunk : RetrievalResult :=
  { chunk :=
      { id := "doc1_chunk_0"
        content := "Mountain pose (Tadasana) is a standing posture."
        metadata :=
          { document_id := "doc1", chunk_index := 0, source := "kb.md",
            category := .YOGA, tokens := 12, created_at := 0 } }
    similarity_score := mkRat 9 10
    relevance_rank := 1 }

/-- Environment for the C9 runs: retrieval finds one chunk, the NVIDIA LLM
client is configured but its call fails, no OpenAI fallback. -/
def cex9Env : AskEnv :=
  { queryId := "qid-9"
    freshSessionId := "sess-9"
    startTime := 0
    elapsedMs := 5
    retrieveOutcome := fun _ _ => .ok [cex9Chunk]
    llm :=
      { nvidiaConfigured := true, nvidiaOutcome := .error "503 upstream"
        openaiConfigured := false, openaiOutcome := .error "off" } }

/-- The plain request used by the C9 runs. -/
def cex9Req : QueryRequest :=
  { query := "what is mountain pose?", max_chunks := none,
    min_similarity := none, user_id := none, session_id := none }

/-- **C9 counterexample.** On a non-blocked query whose LLM call fails, the
handler does return the apology with confidence 0.0, yet the citation list
is NOT empty: it still carries one citation per retrieved chunk. -/
theorem llm_failure_nonempty_citations :
    ((ask_question cex9Req cex9Env).1.response.content = apologyContent ∧
     (ask_question cex9Req cex9Env).1.response.confidence = 0) ∧
    ¬ ((ask_question cex9Req cex9Env).1.response.sources = []) := by
  refine ⟨⟨?_, ?_⟩, ?_⟩ <;> decide

/-- Witness for `llm_failure_apology` at the concrete C9 inputs. -/
theorem llm_failure_apology_witness :
    (ask_question cex9Req cex9Env).1.response.sources
        = (retrievedChunks cex9Req cex9Env).map citationOf :=
  (llm_failure_apology cex9Req cex9Env "503 upstream" (by decide) rfl rfl rfl).2.2.1

/-! ### Semantic chunker (src/services/chunking/semantic_chunker.py)

The tiktoken tokenizer behind `estimate_tokens` is external; it enters the
model as an abstract deterministic function `tok : String → Nat`.  The
`datetime.utcnow()` read in `_create_chunk` is an abstract tick `now`. -/

/-- `ChunkingConfig` (backend/services/chunking/base.py); the two
`preserve_*` booleans are never read by the chunker and are omitted. -/
structure ChunkingConfig where
  chunk_size : Nat := 512
  chunk_overlap : Nat := 50
  min_chunk_size : Nat := 100
  max_chunk_size : Nat := 800
deriving DecidableEq, Repr

/-- First substitution of `_preprocess_content`:
`re.sub(r'\s+', ' ', content)` — each maximal whitespace run becomes one
space.  The flag records whether the previous character belonged to a run
whose space was already emitted. -/
def collapseWsAux : List Char → Bool → List Char
  | [], _ => []
  | c :: cs, inRun =>
    if isPySpace c then
      if inRun then collapseWsAux cs true
      else ' ' :: collapseWsAux cs true
    else c :: collapseWsAux cs false

/-- Second substitution: `re.sub(r'\r\n|\r', '\n', content)`. -/
def normalizeCR : List Char → List Char
  | [] => []
  | '\r' :: '\n' :: cs => '\n' :: normalizeCR cs
  | '\r' :: cs => '\n' :: normalizeCR cs
  | c :: cs => c :: normalizeCR cs

/-- Third substitution: `re.sub(r'\n{3,}', '\n\n', content)` — pending
newlines are flushed capped at two only when the run had length ≥ 3. -/
def squeezeNlAux : List Char → Nat → List Char
  | [], pending => List.replicate (min pending 2) '\n'
  | c :: cs, pending =>
    if c = '\n' then squeezeNlAux cs (pending + 1)
    else List.replicate (min pending 2) '\n' ++ c :: squeezeNlAux cs 0

/-- `SemanticChunker._preprocess_content`. -/
def preprocessContent (content : String) : String :=
  pyStrip ⟨squeezeNlAux (normalizeCR (collapseWsAux content.data false)) 0⟩

/-- Scanner state for the paragraph split `re.split(r'\n\s*\n', content)`:
either accumulating paragraph text (reversed in `cur`), or inside the
whitespace run that follows a newline, where `buf` holds (reversed) the
run's characters after its last newline and `sawNl` records whether the
run contains a second newline (i.e. the separator matched, ending — by
greedy backtracking — at the run's last newline). -/
inductive ParaMode where
  | text (cur : List Char)
  | run (cur buf : List Char) (sawNl : Bool)

/-- Character scanner realizing `re.split(r'\n\s*\n', content)`. -/
def paraScan : List Char → ParaMode → List (List Char)
  | [], .text cur => [cur.reverse]
  | [], .run cur buf sawNl =>
    if sawNl then [cur.reverse, buf.reverse]
    else [(buf ++ '\n' :: cur).reverse]
  | c :: cs, .text cur =>
    if c = '\n' then paraScan cs (.run cur [] false)
    else paraScan cs (.text (c :: cur))
  | c :: cs, .run cur buf sawNl =>
    if c = '\n' then paraScan cs (.run cur [] true)
    else if isPySpace c then paraScan cs (.run cur (c :: buf) sawNl)
    else if sawNl then cur.reverse :: paraScan cs (.text (c :: buf))
    else paraScan cs (.text (c :: (buf ++ '\n' :: cur)))

/-- `SemanticChunker._split_into_paragraphs`. -/
def splitIntoParagraphs (content : String) : List String :=
  (((paraScan content.data (.text [])).map
      (fun p => pyStrip ⟨p⟩)).filter (fun p => p ≠ ""))

/-- Sentence-terminator class `[.!?]`. -/
def isSentEnd (c : Char) : Bool := c = '.' || c = '!' || c = '?'

/-- Scanner state for the sentence split `re.split(r'[.!?]+\s+', text)`:
accumulating sentence text, inside a terminator run (`buf`, reversed), or
inside the separator's trailing whitespace (the sentence before it already
emitted). -/
inductive SentMode where
  | text (cur : List Char)
  | punct (cur buf : List Char)
  | ws

/-- Character scanner realizing `re.split(r'[.!?]+\s+', text)`: a maximal
terminator run followed by at least one whitespace character separates
sentences, and the separator is consumed (Python yields a trailing empty
token when the input ends in a separator). -/
def sentScan : List Char → SentMode → List (List Char)
  | [], .text cur => [cur.reverse]
  | [], .punct cur buf => [(buf ++ cur).reverse]
  | [], .ws => [[]]
  | c :: cs, .text cur =>
    if isSentEnd c then sentScan cs (.punct cur [c])
    else sentScan cs (.text (c :: cur))
  | c :: cs, .punct cur buf =>
    if isSentEnd c then sentScan cs (.punct cur (c :: buf))
    else if isPySpace c then cur.reverse :: sentScan cs .ws
    else sentScan cs (.text (c :: (buf ++ cur)))
  | c :: cs, .ws =>
    if isPySpace c then sentScan cs .ws
    else sentScan cs (.text [c])

/-- `SemanticChunker._split_into_sentences`. -/
def splitIntoSentences (text : String) : List String :=
  (((sentScan text.data (.text [])).map
      (fun p => pyStrip ⟨p⟩)).filter (fun p => p ≠ ""))

/-- `SemanticChunker._get_overlap_text` (Python slice `words[-k:]`). -/
def getOverlapText (cfg : ChunkingConfig) (text : String) : String :=
  let words := pySplitWs text
  let sliced :=
    if cfg.chunk_overlap = 0 then words
    else words.drop (words.length - cfg.chunk_overlap)
  let overlap_words :=
    if words.length > cfg.chunk_overlap then sliced else words
  joinSpace overlap_words

/-- `SemanticChunker._create_chunk`. -/
def mkChunk (tok : String → Nat) (now : Nat) (document_id source : String)
    (category : ContentCategory) (content : String) (chunk_index : Nat) :
    Chunk :=
  { id := document_id ++ "_chunk_" ++ toString chunk_index
    content := pyStrip content
    metadata :=
      { document_id := document_id
        chunk_index := chunk_index
        source := source
        category := category
        tokens := tok content
        created_at := now } }

/-- The loop of `SemanticChunker._split_large_paragraph` over the
paragraph's sentences, carrying the accumulator text, its token count and
the running chunk index. -/
def splitLargeLoop (tok : String → Nat) (cfg : ChunkingConfig) (now : Nat)
    (document_id source : String) (category : ContentCategory) :
    List String → String → Nat → Nat → List Chunk
  | [], cur, _, idx =>
    if cur ≠ "" then [mkChunk tok now document_id source category cur idx]
    else []
  | sentence :: rest, cur, curTok, idx =>
    let st := tok sentence
    if curTok + st > cfg.chunk_size ∧ cur ≠ "" then
      mkChunk tok now document_id source category cur idx ::
        (if 0 < cfg.chunk_overlap then
          let overlap_text := getOverlapText cfg cur
          splitLargeLoop tok cfg now document_id source category rest
            (overlap_text ++ " " ++ sentence) (tok overlap_text + st) (idx + 1)
        else
          splitLargeLoop tok cfg now document_id source category rest
            sentence st (idx + 1))
    else
      splitLargeLoop tok cfg now document_id source category rest
        (if cur ≠ "" then cur ++ " " ++ sentence else sentence)
        (curTok + st) idx

/-- `SemanticChunker._split_large_paragraph`. -/
def splitLargeParagraph (tok : String → Nat) (cfg : ChunkingConfig)
    (now : Nat) (document_id source : String) (category : ContentCategory)
    (paragraph : String) (start_index : Nat) : List Chunk :=
  splitLargeLoop tok cfg now document_id source category
    (splitIntoSentences paragraph) "" 0 start_index

/-- The loop of `SemanticChunker._create_chunks_from_paragraphs` over the
paragraphs. -/
def createChunksLoop (tok : String → Nat) (cfg : ChunkingConfig) (now : Nat)
    (document_id source : String) (category : ContentCategory) :
    List String → String → Nat → Nat → List Chunk
  | [], cur, curTok, idx =>
    if cur ≠ "" ∧ curTok ≥ cfg.min_chunk_size then
      [mkChunk tok now document_id source category cur idx]
    else []
  | paragraph :: rest, cur, curTok, idx =>
    let pt := tok paragraph
    if pt > cfg.max_chunk_size then
      if cur ≠ "" then
        let sentence_chunks :=
          splitLargeParagraph tok cfg now document_id source category paragraph (idx + 1)
        mkChunk tok now document_id source category cur idx ::
          (sentence_chunks ++
            createChunksLoop tok cfg now document_id source category rest
              "" 0 (idx + 1 + sentence_chunks.length))
      else
        let sentence_chunks :=
          splitLargeParagraph tok cfg now document_id source category paragraph idx
        sentence_chunks ++
          createChunksLoop tok cfg now document_id source category rest
            "" 0 (idx + sentence_chunks.length)
    else if curTok + pt > cfg.chunk_size ∧ cur ≠ "" then
      mkChunk tok now document_id source category cur idx ::
        (if 0 < cfg.chunk_overlap then
          let overlap_text := getOverlapText cfg cur
          createChunksLoop tok cfg now document_id source category rest
            (overlap_text ++ "\n\n" ++ paragraph) (tok overlap_text + pt) (idx + 1)
        else
          createChunksLoop tok cfg now document_id source category rest
            paragraph pt (idx + 1))
    else
      createChunksLoop tok cfg now document_id source category rest
        (if cur ≠ "" then cur ++ "\n\n" ++ paragraph else paragraph)
        (curTok + pt) idx

/-- `SemanticChunker.chunk_document`. -/
def chunk_document (tok : String → Nat) (cfg : ChunkingConfig) (now : Nat)
    (content document_id source : String) (category : ContentCategory) :
    List Chunk :=
  createChunksLoop tok cfg now document_id source category
    (splitIntoParagraphs (preprocessContent content)) "" 0 0

/-! ### Chunk validation (backend/services/chunking/service.py) -/

/-- ASCII letter class `[a-zA-Z]`. -/
def isAsciiLetter (c : Char) : Bool :=
  ('a' ≤ c && c ≤ 'z') || ('A' ≤ c && c ≤ 'Z')

/-- `re.search(r'[a-zA-Z]{3,}', s)` as a Boolean: a run of three
consecutive ASCII letters occurs.  `run` counts the letters seen
immediately before. -/
def hasAlphaRun3Aux : List Char → Nat → Bool
  | [], _ => false
  | c :: cs, run =>
    if isAsciiLetter c then
      if run + 1 ≥ 3 then true else hasAlphaRun3Aux cs (run + 1)
    else hasAlphaRun3Aux cs 0

/-- The chunk content contains an alphabetic run of length ≥ 3. -/
def hasAlphaRun3 (s : String) : Bool := hasAlphaRun3Aux s.data 0

/-- The three quality tests of `ChunkingService._validate_chunks` for one
chunk. -/
def validChunk (chunk : Chunk) : Bool :=
  decide ((pyStrip chunk.content).length ≥ 10) &&
  hasAlphaRun3 chunk.content &&
  decide (chunk.metadata.tokens ≥ 5)

/-- `ChunkingService._validate_chunks`. -/
def validate_chunks (chunks : List Chunk) : List Chunk :=
  chunks.filter validChunk

/-! ### Theorems: chunk indices and ids (C5), chunk quality (C6),
chunker determinism (C10) -/

/-- `List.range'` with unit step distributes over list append. -/
theorem range1_append (s m n : Nat) :
    List.range' s m ++ List.range' (s + m) n = List.range' s (m + n) := by
  simp [Nat.add_comm, List.range'_append]

/-- The sentence-level loop hands out consecutive chunk indices starting at
its running counter. -/
theorem splitLargeLoop_indices (tok : String → Nat) (cfg : ChunkingConfig)
    (now : Nat) (docid src : String) (cat : ContentCategory) :
    ∀ (sentences : List String) (cur : String) (curTok idx : Nat),
      (splitLargeLoop tok cfg now docid src cat sentences cur curTok idx).map
          (fun c => c.metadata.chunk_index)
        = List.range' idx
            (splitLargeLoop tok cfg now docid src cat sentences cur curTok idx).length := by
  intro sentences
  induction sentences with
  | nil =>
    intro cur curTok idx
    unfold splitLargeLoop
    split
    · rfl
    · rfl
  | cons s rest ih =>
    intro cur curTok idx
    simp only [splitLargeLoop]
    split
    · split
      · simp only [List.map_cons, List.length_cons, ih, List.range'_succ]
        rfl
      · simp only [List.map_cons, List.length_cons, ih, List.range'_succ]
        rfl
    · exact ih _ _ idx

/-- The paragraph-level loop hands out consecutive chunk indices starting
at its running counter. -/
theorem createChunksLoop_indices (tok : String → Nat) (cfg : ChunkingConfig)
    (now : Nat) (docid src : String) (cat : ContentCategory) :
    ∀ (paragraphs : List String) (cur : String) (curTok idx : Nat),
      (createChunksLoop tok cfg now docid src cat paragraphs cur curTok idx).map
          (fun c => c.metadata.chunk_index)
        = List.range' idx
            (createChunksLoop tok cfg now docid src cat paragraphs cur curTok idx).length := by
  intro paragraphs
  induction paragraphs with
  | nil =>
    intro cur curTok idx
    unfold createChunksLoop
    split
    · rfl
    · rfl
  | cons p rest ih =>
    intro cur curTok idx
    simp only [createChunksLoop, splitLargeParagraph]
    split
    · split
      · simp only [List.map_cons, List.map_append, List.length_cons, List.length_append,
          splitLargeLoop_indices, ih, range1_append]
        rw [show (splitLargeLoop tok cfg now docid src cat (splitIntoSentences p) "" 0 (idx+1)).length
              + (createChunksLoop tok cfg now docid src cat rest "" 0
                  (idx + 1 + (splitLargeLoop tok cfg now docid src cat (splitIntoSentences p) "" 0 (idx+1)).length)).length
              + 1
            = ((splitLargeLoop tok cfg now docid src cat (splitIntoSentences p) "" 0 (idx+1)).length
              + (createChunksLoop tok cfg now docid src cat rest "" 0
                  (idx + 1 + (splitLargeLoop tok cfg now docid src cat (splitIntoSentences p) "" 0 (idx+1)).length)).length)
              + 1 from rfl]
        rw [List.range'_succ]
        rfl
      · simp only [List.map_append, List.length_append, splitLargeLoop_indices, ih, range1_append]
    · split
      · split
        · simp only [List.map_cons, List.length_cons, ih, List.range'_succ]
          rfl
        · simp only [List.map_cons, List.length_cons, ih, List.range'_succ]
          rfl
      · exact ih _ _ idx

/-- Every chunk emitted by the sentence-level loop has the id built from
its own document id and chunk index. -/
theorem splitLargeLoop_ids (tok : String → Nat) (cfg : ChunkingConfig)
    (now : Nat) (docid src : String) (cat : ContentCategory) :
    ∀ (sentences : List String) (cur : String) (curTok idx : Nat),
      ∀ c ∈ splitLargeLoop tok cfg now docid src cat sentences cur curTok idx,
        c.id = docid ++ "_chunk_" ++ toString c.metadata.chunk_index := by
  intro sentences
  induction sentences with
  | nil =>
    intro cur curTok idx c hc
    unfold splitLargeLoop at hc
    split at hc
    · rcases List.mem_singleton.mp hc with rfl
      rfl
    · simp at hc
  | cons s rest ih =>
    intro cur curTok idx c hc
    simp only [splitLargeLoop] at hc
    split at hc
    · rcases List.mem_cons.mp hc with rfl | h2
      · rfl
      · split at h2
        · exact ih _ _ _ c h2
        · exact ih _ _ _ c h2
    · exact ih _ _ _ c hc

/-- Every chunk emitted by the paragraph-level loop has the id built from
its own document id and chunk index. -/
theorem createChunksLoop_ids (tok : String → Nat) (cfg : ChunkingConfig)
    (now : Nat) (docid src : String) (cat : ContentCategory) :
    ∀ (paragraphs : List String) (cur : String) (curTok idx : Nat),
      ∀ c ∈ createChunksLoop tok cfg now docid src cat paragraphs cur curTok idx,
        c.id = docid ++ "_chunk_" ++ toString c.metadata.chunk_index := by
  intro paragraphs
  induction paragraphs with
  | nil =>
    intro cur curTok idx c hc
    unfold createChunksLoop at hc
    split at hc
    · rcases List.mem_singleton.mp hc with rfl
      rfl
    · simp at hc
  | cons p rest ih =>
    intro cur curTok idx c hc
    simp only [createChunksLoop, splitLargeParagraph] at hc
    split at hc
    · split at hc
      · rcases List.mem_cons.mp hc with rfl | h2
        · rfl
        · rcases List.mem_append.mp h2 with h3 | h4
          · exact splitLargeLoop_ids tok cfg now docid src cat _ _ _ _ c h3
          · exact ih _ _ _ c h4
      · rcases List.mem_append.mp hc with h3 | h4
        · exact splitLargeLoop_ids tok cfg now docid src cat _ _ _ _ c h3
        · exact ih _ _ _ c h4
    · split at hc
      · rcases List.mem_cons.mp hc with rfl | h2
        · rfl
        · split at h2
          · exact ih _ _ _ c h2
          · exact ih _ _ _ c h2
      · exact ih _ _ _ c hc

/-- The observable payload of a chunk named by scenario S6: its content,
its token count and its id. -/
def chunkData (c : Chunk) : String × Nat × String :=
  (c.content, c.metadata.tokens, c.id)

/-- The clock tick never influences the sentence-level loop's payloads. -/
theorem splitLargeLoop_now_irrelevant (tok : String → Nat)
    (cfg : ChunkingConfig) (docid src : String) (cat : ContentCategory)
    (now₁ now₂ : Nat) :
    ∀ (sentences : List String) (cur : String) (curTok idx : Nat),
      (splitLargeLoop tok cfg now₁ docid src cat sentences cur curTok idx).map chunkData
        = (splitLargeLoop tok cfg now₂ docid src cat sentences cur curTok idx).map chunkData := by
  intro sentences
  induction sentences with
  | nil =>
    intro cur curTok idx
    unfold splitLargeLoop
    split
    · rfl
    · rfl
  | cons s rest ih =>
    intro cur curTok idx
    simp only [splitLargeLoop]
    split
    · split
      · simp only [List.map_cons, ih]
        rfl
      · simp only [List.map_cons, ih]
        rfl
    · exact ih _ _ idx

/-- The clock tick never influences the paragraph-level loop's payloads. -/
theorem createChunksLoop_now_irrelevant (tok : String → Nat)
    (cfg : ChunkingConfig) (docid src : String) (cat : ContentCategory)
    (now₁ now₂ : Nat) :
    ∀ (paragraphs : List String) (cur : String) (curTok idx : Nat),
      (createChunksLoop tok cfg now₁ docid src cat paragraphs cur curTok idx).map chunkData
        = (createChunksLoop tok cfg now₂ docid src cat paragraphs cur curTok idx).map chunkData := by
  intro paragraphs
  induction paragraphs with
  | nil =>
    intro cur curTok idx
    unfold createChunksLoop
    split
    · rfl
    · rfl
  | cons p rest ih =>
    intro cur curTok idx
    simp only [createChunksLoop, splitLargeParagraph]
    split
    · split
      · have hmap := splitLargeLoop_now_irrelevant tok cfg docid src cat now₁ now₂
          (splitIntoSentences p) "" 0 (idx + 1)
        have hlen : (splitLargeLoop tok cfg now₁ docid src cat
              (splitIntoSentences p) "" 0 (idx + 1)).length
            = (splitLargeLoop tok cfg now₂ docid src cat
              (splitIntoSentences p) "" 0 (idx + 1)).length := by
          have h := congrArg List.length hmap
          simpa using h
        simp only [List.map_cons, List.map_append, hmap, hlen, ih]
        rfl
      · have hmap := splitLargeLoop_now_irrelevant tok cfg docid src cat now₁ now₂
          (splitIntoSentences p) "" 0 idx
        have hlen : (splitLargeLoop tok cfg now₁ docid src cat
              (splitIntoSentences p) "" 0 idx).length
            = (splitLargeLoop tok cfg now₂ docid src cat
              (splitIntoSentences p) "" 0 idx).length := by
          have h := congrArg List.length hmap
          simpa using h
        simp only [List.map_append, hmap, hlen, ih]
    · split
      · split
        · simp only [List.map_cons, ih]
          rfl
        · simp only [List.map_cons, ih]
          rfl
      · exact ih _ _ idx

/-- **C5 (amended).** For every document, tokenizer and configuration, the
chunk list the chunker emits (pre-validation) carries chunk indices that
are exactly the contiguous 0-based sequence `0..n-1`, and every chunk's id
— before and after validation — equals
`{document_id}_chunk_{chunk_index}` built from its own fields; the
validation filter returns an order-preserving sublist, but its survivors
keep their original indices and so the post-validation index sequence may
have gaps. -/
theorem chunk_ids_and_pre_validation_indices (tok : String → Nat)
    (cfg : ChunkingConfig) (now : Nat) (content docid src : String)
    (cat : ContentCategory) :
    (chunk_document tok cfg now content docid src cat).map
        (fun c => c.metadata.chunk_index)
      = List.range' 0 (chunk_document tok cfg now content docid src cat).length ∧
    (∀ c ∈ chunk_document tok cfg now content docid src cat,
        c.id = docid ++ "_chunk_" ++ toString c.metadata.chunk_index) ∧
    List.Sublist (validate_chunks (chunk_document tok cfg now content docid src cat))
        (chunk_document tok cfg now content docid src cat) ∧
    (∀ c ∈ validate_chunks (chunk_document tok cfg now content docid src cat),
        c.id = docid ++ "_chunk_" ++ toString c.metadata.chunk_index) := by
  refine ⟨createChunksLoop_indices tok cfg now docid src cat _ "" 0 0,
    createChunksLoop_ids tok cfg now docid src cat _ "" 0 0,
    List.filter_sublist _, ?_⟩
  intro c hc
  exact createChunksLoop_ids tok cfg now docid src cat _ "" 0 0 c
    (List.mem_of_mem_filter hc)

/-- A concrete word-count tokenizer used by the concrete chunker runs; the
production tokenizer (tiktoken) is external to the repository, and the
behaviour exhibited below is forced by the chunker's own control flow, with
the word count standing in for the source's own fallback estimate. -/
def tokWordCount : String → Nat := fun s => (pySplitWs s).length

/-- A small but legal chunking configuration for the concrete runs. -/
def cexCfg : ChunkingConfig :=
  { chunk_size := 3, chunk_overlap := 0, min_chunk_size := 1, max_chunk_size := 4 }

/-- A document whose first emitted chunk (`"111 222 333"`, index 0) fails
validation (no alphabetic run) while the second (index 1) passes. -/
def cexDoc : String := "111 222 333. aaa bbb ccc ddd eee ff."

/-- **C5 counterexample.** After validation the surviving chunk keeps its
original index 1, so the post-validation index list `[1]` is not the
contiguous 0-based sequence. -/
theorem validated_indices_gap_counterexample :
    ¬ ((validate_chunks (chunk_document tokWordCount cexCfg 0 cexDoc
          "doc" "src" .WELLNESS)).map (fun c => c.metadata.chunk_index)
        = List.range' 0 (validate_chunks (chunk_document tokWordCount cexCfg 0 cexDoc
          "doc" "src" .WELLNESS)).length) := by
  decide

/-- Witness for `chunk_ids_and_pre_validation_indices` on the concrete
document: pre-validation the indices are `[0, 1]`. -/
theorem chunk_ids_and_pre_validation_indices_witness :
    (chunk_document tokWordCount cexCfg 0 cexDoc "doc" "src" .WELLNESS).map
        (fun c => c.metadata.chunk_index)
      = List.range' 0 (chunk_document tokWordCount cexCfg 0 cexDoc
          "doc" "src" .WELLNESS).length :=
  (chunk_ids_and_pre_validation_indices tokWordCount cexCfg 0 cexDoc
    "doc" "src" .WELLNESS).1

/-- **C6 (amended).** Every chunk surviving validation has trimmed content
of length ≥ 10 characters (hence non-empty), an alphabetic run of length
≥ 3, and token count ≥ 5; the claimed upper bound `tokens ≤ max_chunk_size`
does not hold (see the counterexample). -/
theorem validated_chunk_quality (tok : String → Nat) (cfg : ChunkingConfig)
    (now : Nat) (content docid src : String) (cat : ContentCategory) :
    ∀ c ∈ validate_chunks (chunk_document tok cfg now content docid src cat),
      10 ≤ (pyStrip c.content).length ∧ hasAlphaRun3 c.content = true ∧
      5 ≤ c.metadata.tokens := by
  intro c hc
  have h := List.of_mem_filter hc
  simp only [validChunk, Bool.and_eq_true, decide_eq_true_eq] at h
  exact ⟨h.1.1, h.1.2, h.2⟩

/-- The single chunk of the C6 concrete run. -/
def w6Chunk : Chunk :=
  mkChunk tokWordCount 0 "doc" "src" ContentCategory.WELLNESS
    "aaa bbb ccc ddd eee fff" 0

/-- Witness for `validated_chunk_quality` on a concrete six-word document
chunked under `cexCfg`. -/
theorem validated_chunk_quality_witness :
    5 ≤ w6Chunk.metadata.tokens :=
  (validated_chunk_quality tokWordCount cexCfg 0 "aaa bbb ccc ddd eee fff"
    "doc" "src" .WELLNESS w6Chunk (by decide)).2.2

/-- **C6 counterexample.** A six-word single-sentence document under a
configuration with `max_chunk_size = 4` yields a validated chunk with 6
tokens: the upper bound `tokens ≤ max_chunk_size` fails. -/
theorem validated_tokens_exceed_max_counterexample :
    ¬ (∀ c ∈ validate_chunks (chunk_document tokWordCount cexCfg 0
          "aaa bbb ccc ddd eee fff" "doc" "src" .WELLNESS),
        c.metadata.tokens ≤ cexCfg.max_chunk_size) := by
  decide

/-- **C10.** The chunker is deterministic: with the tokenizer fixed, the
only run-to-run varying input of `chunk_document` is the wall-clock tick
recorded in `created_at`, and two invocations on the same content, config,
document id, source and category agree chunk-by-chunk on content, token
count and id whatever the two ticks are. -/
theorem chunker_deterministic (tok : String → Nat) (cfg : ChunkingConfig)
    (content docid src : String) (cat : ContentCategory) (now₁ now₂ : Nat) :
    (chunk_document tok cfg now₁ content docid src cat).map chunkData
      = (chunk_document tok cfg now₂ content docid src cat).map chunkData :=
  createChunksLoop_now_irrelevant tok cfg docid src cat now₁ now₂ _ "" 0 0

/-! ### Embedding services (backend/services/embeddings/nvidia_service.py
and service.py)

The HTTP embedding API is an oracle `api : List String → ApiResponse`; a
parsed 2xx payload of any accepted shape reduces to one embedding and one
token count per item.  `np.linalg.norm` is an oracle `nrm` (its value is
irrational in general; only the shape of normalization matters here).
Python floats are again modelled as rationals. -/

/-- Configuration of `NvidiaEmbeddingService` (fields the embedding path
reads). -/
structure NvidiaEmbeddingConfig where
  dimension : Nat := 1024
  max_tokens : Nat := 512
  batch_size : Nat := 10
  normalize : Bool := true
deriving DecidableEq, Repr

/-- Outcome of one `_embed_batch` HTTP round trip, already parsed: either
a raised `EmbeddingError` (non-200, transport error, unexpected shape) or
the per-item embeddings and token counts. -/
inductive ApiResponse where
  | failure (msg : String)
  | success (embeddings : List (List ℚ)) (token_counts : List Nat)

/-- Index of the last `' '` in `s` (`s.rfind(' ')`), if any. -/
def lastSpaceIdx (s : String) : Option Nat :=
  (s.data.reverse.findIdx? (fun c => c = ' ')).map
    (fun j => s.data.length - 1 - j)

/-- The pre-batching truncation of one text in `embed_texts`: texts longer
than `max_chars` are cut there, stepping back to the last space when it
falls within the kept prefix's last 10 % (`last_space > max_chars * 0.9`,
i.e. `10·i > 9·max_chars`). -/
def truncateText (max_chars : Nat) (text : String) : String :=
  if text.length > max_chars then
    let truncated := takeChars max_chars text
    match lastSpaceIdx truncated with
    | some i =>
      if 10 * i > 9 * max_chars then takeChars i truncated else truncated
    | none => truncated
  else text

/-- Batch splitter `_batch_texts` (slices of `batch_size`); `room` counts
the free slots of the batch being built.  Python raises on
`batch_size = 0`; the model is only consulted for positive sizes. -/
def batchAux (bs : Nat) : List String → List String → Nat → List (List String)
  | [], cur, _ => if cur.isEmpty then [] else [cur.reverse]
  | x :: xs, cur, room =>
    match room with
    | 0 => cur.reverse :: batchAux bs xs [x] (bs - 1)
    | r + 1 => batchAux bs xs (x :: cur) r

/-- `_batch_texts`. -/
def batchTexts (bs : Nat) (l : List String) : List (List String) :=
  batchAux bs l [] bs

/-- The count-repair step of `_embed_batch`: pad with zero-vectors (and
token count 100) up to the batch size, then truncate both lists to it. -/
def padTruncate (d n : Nat) (embs : List (List ℚ)) (tcs : List Nat) :
    List (List ℚ) × List Nat :=
  ((embs ++ List.replicate (n - embs.length) (List.replicate d 0)).take n,
   (tcs ++ List.replicate (n - embs.length) 100).take n)

/-- `_embed_batch` given the parsed API outcome: an empty embedding list is
an error; otherwise the counts are repaired to the batch size. -/
def embedBatchModel (cfg : NvidiaEmbeddingConfig) (resp : ApiResponse)
    (texts : List String) : Except String (List (List ℚ) × List Nat) :=
  match resp with
  | .failure msg => .error msg
  | .success embs tcs =>
    if embs.isEmpty then .error "No embeddings found in NVIDIA API response"
    else .ok (padTruncate cfg.dimension texts.length embs tcs)

/-- The per-batch loop of `NvidiaEmbeddingService.embed_texts`: extend with
the batch's embeddings, or with one zero-vector per text (token count =
whitespace word count) when `_embed_batch` raised. -/
def embedBatches (cfg : NvidiaEmbeddingConfig)
    (api : List String → ApiResponse) :
    List (List String) → List (List ℚ) × List Nat
  | [] => ([], [])
  | batch :: rest =>
    let tail := embedBatches cfg api rest
    match embedBatchModel cfg (api batch) batch with
    | .ok (embs, tcs) => (embs ++ tail.1, tcs ++ tail.2)
    | .error _ =>
      (batch.map (fun _ => List.replicate cfg.dimension 0) ++ tail.1,
       batch.map (fun t => (pySplitWs t).length) ++ tail.2)

/-- `_normalize_embeddings` on one row, with `nrm` standing for
`np.linalg.norm` and the `norms == 0 → 1` replacement. -/
def normalizeVec (nrm : List ℚ → ℚ) (v : List ℚ) : List ℚ :=
  v.map (fun x => x / (if nrm v = 0 then 1 else nrm v))

/-- `NvidiaEmbeddingService.embed_texts`. -/
def nvidiaEmbedTexts (cfg : NvidiaEmbeddingConfig) (nrm : List ℚ → ℚ)
    (api : List String → ApiResponse) (texts : List String) :
    List (List ℚ) × List Nat :=
  let truncated := texts.map (truncateText (cfg.max_tokens * 3))
  let result := embedBatches cfg api (batchTexts cfg.batch_size truncated)
  if result.1 ≠ [] ∧ cfg.normalize = true then
    (result.1.map (normalizeVec nrm), result.2)
  else result

/-- `EmbeddingCache.get` as seen by `embed_texts`: Python tests the cached
value with `if cached:`, so a cached empty vector behaves as a miss. -/
def cacheLookup (cGet : String → Option (List ℚ)) (t : String) :
    Option (List ℚ) :=
  match cGet t with
  | some v => if v.isEmpty then none else some v
  | none => none

/-- Number of cache misses among the first `i` texts: the fresh embedding
for a miss at position `i` sits at this index of the provider's output
(the source places `result.embeddings[j]` at `cache_indices[j]`). -/
def missesBefore (cGet : String → Option (List ℚ)) (texts : List String)
    (i : Nat) : Nat :=
  ((texts.take i).filter (fun t => (cacheLookup cGet t).isNone)).length

/-- `EmbeddingService.embed_texts`: cached vectors are placed at their own
indices, provider outputs fill the miss positions in order (`None` marks a
slot the provider failed to supply, which pydantic would then reject). -/
def service_embed_texts (cGet : String → Option (List ℚ))
    (svc : List String → List (List ℚ)) (texts : List String) :
    List (Option (List ℚ)) :=
  if texts.isEmpty then []
  else
    let texts_to_embed :=
      texts.filter (fun t => (cacheLookup cGet t).isNone)
    let fresh := svc texts_to_embed
    (List.range texts.length).map (fun i =>
      match cacheLookup cGet (texts.getD i "") with
      | some v => some v
      | none => fresh.get? (missesBefore cGet texts i))

/-! ### Theorems: embedding count and dimension (C7) -/

/-- Concatenating the batches recovers the input list (any batch size). -/
theorem batchAux_join (bs : Nat) :
    ∀ (l cur : List String) (room : Nat),
      (batchAux bs l cur room).flatten = cur.reverse ++ l := by
  intro l
  induction l with
  | nil =>
    intro cur room
    unfold batchAux
    split
    · simp_all
    · simp
  | cons x xs ih =>
    intro cur room
    unfold batchAux
    match room with
    | 0 => simp [ih]
    | r + 1 => simp [ih]

/-- The count repair returns exactly one embedding per batch text. -/
theorem padTruncate_len (d n : Nat) (embs : List (List ℚ)) (tcs : List Nat) :
    (padTruncate d n embs tcs).1.length = n := by
  simp [padTruncate]
  omega

/-- The count repair preserves the declared dimension (its padding
vectors are zero-vectors of that dimension). -/
theorem padTruncate_dim (d n : Nat) (embs : List (List ℚ)) (tcs : List Nat)
    (h : ∀ v ∈ embs, v.length = d) :
    ∀ v ∈ (padTruncate d n embs tcs).1, v.length = d := by
  intro v hv
  have hv2 := (List.take_sublist n _).subset hv
  rcases List.mem_append.mp hv2 with h1 | h2
  · exact h v h1
  · rw [List.eq_of_mem_replicate h2]
    exact List.length_replicate _ _

/-- The per-batch loop emits exactly one embedding per batched text,
zero-vector fallbacks included. -/
theorem embedBatches_len (cfg : NvidiaEmbeddingConfig)
    (api : List String → ApiResponse) :
    ∀ batches : List (List String),
      (embedBatches cfg api batches).1.length = batches.flatten.length := by
  intro batches
  induction batches with
  | nil => rfl
  | cons b rest ih =>
    simp only [embedBatches]
    cases hb : embedBatchModel cfg (api b) b with
    | ok p =>
      have : p.1.length = b.length := by
        unfold embedBatchModel at hb
        cases hr : api b with
        | failure m => rw [hr] at hb; cases hb
        | success e t =>
          rw [hr] at hb
          by_cases he : e.isEmpty
          · simp [he] at hb
          · simp [he] at hb
            rw [← hb]
            exact padTruncate_len _ _ _ _
      simp [this, ih]
    | error m =>
      simp [ih]

/-- Under the API contract that returned embeddings have the declared
dimension, every vector the per-batch loop emits has that dimension. -/
theorem embedBatches_dim (cfg : NvidiaEmbeddingConfig)
    (api : List String → ApiResponse)
    (hapi : ∀ (b : List String) (e : List (List ℚ)) (t : List Nat),
      api b = .success e t → ∀ v ∈ e, v.length = cfg.dimension) :
    ∀ batches : List (List String),
      ∀ v ∈ (embedBatches cfg api batches).1, v.length = cfg.dimension := by
  intro batches
  induction batches with
  | nil => intro v hv; simp [embedBatches] at hv
  | cons b rest ih =>
    intro v hv
    simp only [embedBatches] at hv
    cases hb : embedBatchModel cfg (api b) b with
    | ok p =>
      rw [hb] at hv
      rcases List.mem_append.mp hv with h1 | h2
      · unfold embedBatchModel at hb
        cases hr : api b with
        | failure m => rw [hr] at hb; cases hb
        | success e t =>
          rw [hr] at hb
          by_cases he : e.isEmpty
          · simp [he] at hb
          · simp [he] at hb
            rw [← hb] at h1
            exact padTruncate_dim _ _ _ _ (hapi b e t hr) v h1
      · exact ih v h2
    | error m =>
      rw [hb] at hv
      rcases List.mem_append.mp hv with h1 | h2
      · rcases List.mem_map.mp h1 with ⟨t, _, rfl⟩
        exact List.length_replicate _ _
      · exact ih v h2

/-- `NvidiaEmbeddingService.embed_texts` returns exactly one vector per
input text. -/
theorem nvidiaEmbedTexts_len (cfg : NvidiaEmbeddingConfig)
    (nrm : List ℚ → ℚ) (api : List String → ApiResponse)
    (texts : List String) :
    (nvidiaEmbedTexts cfg nrm api texts).1.length = texts.length := by
  simp only [nvidiaEmbedTexts]
  have hbase :
      (embedBatches cfg api
        (batchTexts cfg.batch_size
          (texts.map (truncateText (cfg.max_tokens * 3))))).1.length
      = texts.length := by
    rw [embedBatches_len, batchTexts, batchAux_join]
    simp
  split
  · simpa using hbase
  · exact hbase

/-- Every vector `NvidiaEmbeddingService.embed_texts` returns has the
declared dimension (normalization is dimension-preserving). -/
theorem nvidiaEmbedTexts_dim (cfg : NvidiaEmbeddingConfig)
    (nrm : List ℚ → ℚ) (api : List String → ApiResponse)
    (hapi : ∀ (b : List String) (e : List (List ℚ)) (t : List Nat),
      api b = .success e t → ∀ v ∈ e, v.length = cfg.dimension)
    (texts : List String) :
    ∀ v ∈ (nvidiaEmbedTexts cfg nrm api texts).1,
      v.length = cfg.dimension := by
  simp only [nvidiaEmbedTexts]
  intro v hv
  split at hv
  · simp only [List.mem_map] at hv
    rcases hv with ⟨w, hw, rfl⟩
    have := embedBatches_dim cfg api hapi _ w hw
    simpa [normalizeVec] using this
  · exact embedBatches_dim cfg api hapi _ v hv

/-- A miss at position `i` has fewer misses before it than there are
misses in total, so its index into the provider output is in range. -/
theorem missesBefore_lt (cGet : String → Option (List ℚ)) :
    ∀ (texts : List String) (i : Nat), i < texts.length →
      (cacheLookup cGet (texts.getD i "")).isNone = true →
      missesBefore cGet texts i
        < (texts.filter (fun t => (cacheLookup cGet t).isNone)).length := by
  intro texts
  induction texts with
  | nil => intro i hi; simp at hi
  | cons t ts ih =>
    intro i hi hm
    cases i with
    | zero =>
      simp only [List.getD_cons_zero] at hm
      simp [missesBefore, List.filter_cons, hm]
    | succ j =>
      simp only [List.getD_cons_succ] at hm
      have hj : j < ts.length := by simpa using hi
      have := ih j hj hm
      by_cases ht : (cacheLookup cGet t).isNone
      · simp only [missesBefore, List.take_succ_cons, List.filter_cons, ht] at *
        simpa using Nat.succ_lt_succ this
      · simp only [missesBefore, List.take_succ_cons, List.filter_cons, ht] at *
        simp only [Bool.false_eq_true, if_false] at *
        exact this

/-- The provider function the service layer calls when configured with the
NVIDIA backend. -/
def nvidiaProvider (cfg : NvidiaEmbeddingConfig) (nrm : List ℚ → ℚ)
    (api : List String → ApiResponse) : List String → List (List ℚ) :=
  fun l => (nvidiaEmbedTexts cfg nrm api l).1

/-- **C7.** Under the API contract that a successful batch returns vectors
of the declared dimension (and that cached vectors, which the cache only
ever receives from such outputs, have it too), `EmbeddingService.embed_texts`
with the NVIDIA provider returns exactly one embedding per input text, each
slot filled (cached vectors spliced back at their own index, fresh vectors
filling the miss positions in input order by construction of
`service_embed_texts`), and every returned vector — zero-vector fallbacks
for failed batches included — has the declared dimension. -/
theorem embed_texts_count_and_dim (cfg : NvidiaEmbeddingConfig)
    (nrm : List ℚ → ℚ) (api : List String → ApiResponse)
    (cGet : String → Option (List ℚ)) (texts : List String)
    (hapi : ∀ (b : List String) (e : List (List ℚ)) (t : List Nat),
      api b = .success e t → ∀ v ∈ e, v.length = cfg.dimension)
    (hcache : ∀ t v, cacheLookup cGet t = some v → v.length = cfg.dimension) :
    (service_embed_texts cGet (nvidiaProvider cfg nrm api) texts).length
        = texts.length ∧
    ∀ i, i < texts.length →
      (∀ w, cacheLookup cGet (texts.getD i "") = some w →
          (service_embed_texts cGet (nvidiaProvider cfg nrm api) texts).getD i none
            = some w) ∧
      ∃ v, (service_embed_texts cGet (nvidiaProvider cfg nrm api) texts).getD i none
            = some v ∧ v.length = cfg.dimension := by
  constructor
  · simp only [service_embed_texts]
    split
    · simp_all
    · simp
  · intro i hi
    have hne : texts.isEmpty = false := by
      cases texts
      · simp at hi
      · rfl
    have hslot :
        (service_embed_texts cGet (nvidiaProvider cfg nrm api) texts).getD i none
          = (match cacheLookup cGet (texts.getD i "") with
             | some v => some v
             | none =>
               ((nvidiaEmbedTexts cfg nrm api
                  (texts.filter (fun t => (cacheLookup cGet t).isNone))).1).get?
                 (missesBefore cGet texts i)) := by
      simp only [service_embed_texts, hne, Bool.false_eq_true, if_false,
        nvidiaProvider]
      rw [List.getD_eq_getElem?_getD, List.getElem?_map, List.getElem?_range hi]
      rfl
    cases hcl : cacheLookup cGet (texts.getD i "") with
    | some w =>
      rw [hcl] at hslot
      refine ⟨fun w2 hw2 => ?_, w, hslot, hcache _ w hcl⟩
      cases hw2
      exact hslot
    | none =>
      rw [hcl] at hslot
      have hlen : (nvidiaEmbedTexts cfg nrm api
          (texts.filter (fun t => (cacheLookup cGet t).isNone))).1.length
          = (texts.filter (fun t => (cacheLookup cGet t).isNone)).length :=
        nvidiaEmbedTexts_len cfg nrm api _
      have hmb : missesBefore cGet texts i
          < (nvidiaEmbedTexts cfg nrm api
              (texts.filter (fun t => (cacheLookup cGet t).isNone))).1.length := by
        rw [hlen]
        exact missesBefore_lt cGet texts i hi
          (by simpa using congrArg Option.isNone hcl)
      have hq := List.get?_eq_get hmb
      refine ⟨fun w2 hw2 => ?_, ?_⟩
      · exact Option.noConfusion hw2
      · exact ⟨_, hslot.trans hq,
          nvidiaEmbedTexts_dim cfg nrm api hapi _ _ (List.get_mem _ _ _)⟩

/-- A small concrete NVIDIA configuration for the C7 run. -/
def w7Cfg : NvidiaEmbeddingConfig :=
  { dimension := 3, max_tokens := 512, batch_size := 2, normalize := true }

/-- Witness for `embed_texts_count_and_dim`: an empty cache and an API that
is down still yield one (zero) vector per input text. -/
theorem embed_texts_count_and_dim_witness :
    (service_embed_texts (fun _ => none)
        (nvidiaProvider w7Cfg (fun _ => 1) (fun _ => .failure "down"))
        ["a", "b", "c"]).length = 3 :=
  (embed_texts_count_and_dim w7Cfg (fun _ => 1) (fun _ => .failure "down")
    (fun _ => none) ["a", "b", "c"]
    (fun _ _ _ h => ApiResponse.noConfusion h)
    (fun t v h => by simp [cacheLookup] at h)).1

/-! ### Rate limiter (backend/core/rate_limiter.py)

The in-memory fallback is embedded as a deterministic step on the per-key
entry (the Redis path's pipeline outcome is an oracle, one per call). -/

/-- One key's entry of `_in_memory_store`. -/
structure MemEntry where
  count : Nat
  start_time : Nat
deriving DecidableEq, Repr

/-- One `is_rate_limited` call on the in-memory fallback for one key:
the decision and the updated entry. -/
def memStep (requests_limit window_seconds now : Nat) :
    Option MemEntry → Bool × MemEntry
  | none => (false, ⟨1, now⟩)
  | some e =>
    if now - e.start_time > window_seconds then (false, ⟨1, now⟩)
    else if e.count ≥ requests_limit then (true, e)
    else (false, ⟨e.count + 1, e.start_time⟩)

/-- A same-key request sequence at the given times against the in-memory
fallback, from the given starting entry: the per-request decisions
(`false` = admitted). -/
def memRun (limit window : Nat) : List Nat → Option MemEntry → List Bool
  | [], _ => []
  | t :: ts, st =>
    let r := memStep limit window t st
    r.1 :: memRun limit window ts (some r.2)

/-- The Redis-path decision for one call given the pipeline outcome: a
post-increment `count > limit` rejects; any store error admits (the
`except` arm's fail-open `return False`). -/
def redisLimited (requests_limit : Nat) (outcome : Except String Nat) : Bool :=
  match outcome with
  | .ok count => count > requests_limit
  | .error _ => false

/-- Number of admitted requests across a window of Redis outcomes. -/
def admittedCount (limit : Nat) (outcomes : List (Except String Nat)) : Nat :=
  (outcomes.filter (fun o => !redisLimited limit o)).length

/-- `get_rate_limiter`: a limited request raises HTTP 429 with the fixed
detail string; otherwise the request proceeds. -/
def rateLimitGate (limited : Bool) : Except (Nat × String) Unit :=
  if limited then .error (429, "Too many requests. Please try again later.")
  else .ok ()

/-- Within one window (all request times within `window` of the entry's
start), admissions never push the count past `max 1 limit`. -/
theorem memRun_bound (limit window t0 : Nat) :
    ∀ (ts : List Nat) (c : Nat), (∀ t ∈ ts, t - t0 ≤ window) →
      1 ≤ c → c ≤ max 1 limit →
      (memRun limit window ts (some ⟨c, t0⟩)).count false + c ≤ max 1 limit := by
  intro ts
  induction ts with
  | nil => intro c _ _ hc2; simpa [memRun] using hc2
  | cons t ts ih =>
    intro c h hc1 hc2
    have hwin : ¬ (t - t0 > window) := by
      have := h t (List.mem_cons_self _ _)
      omega
    simp only [memRun, memStep, hwin, if_false]
    by_cases hge : c ≥ limit
    · simp only [hge, if_true]
      rw [List.count_cons_of_ne (by decide)]
      have := ih c (fun x hx => h x (List.mem_cons_of_mem _ hx)) hc1 hc2
      omega
    · simp only [hge, if_false]
      rw [List.count_cons_self]
      have hle : c + 1 ≤ max 1 limit := by omega
      have := ih (c + 1) (fun x hx => h x (List.mem_cons_of_mem _ hx)) (by omega) hle
      omega

/-- Over an error-free window the store's atomic increment hands back the
successive post-increment counts `s, s+1, …`; the requests admitted from
count `s` on number at most `limit + 1 - s`. -/
theorem redis_window_bound (limit : Nat) :
    ∀ (n s : Nat),
      admittedCount limit ((List.range' s n).map Except.ok) ≤ limit + 1 - s := by
  intro n
  induction n with
  | zero => intro s; simp [admittedCount]
  | succ m ih =>
    intro s
    rw [List.range'_succ]
    by_cases hs : limit < s
    · have hkeep : (!redisLimited limit (Except.ok s)) = false := by
        simp [redisLimited]
        omega
      simp only [List.map_cons, admittedCount, List.filter_cons, hkeep,
        Bool.false_eq_true, if_false]
      have := ih (s + 1)
      simp only [admittedCount] at this
      omega
    · have hkeep : (!redisLimited limit (Except.ok s)) = true := by
        simp [redisLimited]
        omega
      simp only [List.map_cons, admittedCount, List.filter_cons, hkeep, if_true,
        List.length_cons]
      have := ih (s + 1)
      simp only [admittedCount] at this
      omega

/-- **C8 (amended).** With limit 2 and window 60 s, three same-window
requests from one client yield 200, 200, then 429 with detail "Too many
requests. Please try again later."; on the in-memory fallback the number
of admitted requests in any one window is at most `limit + 1` (in fact
`max 1 limit`); a backing-store error admits the request (fail open) —
which is why a window with store errors can exceed the bound (see the
counterexample); and an error-free backing store, whose atomic increment
returns the successive counts `1..n` over one window key, likewise admits
at most `limit + 1` (in fact `limit`) requests per window. -/
theorem rate_limiter_fixed_window (limit window t0 : Nat) (ts : List Nat)
    (h : ∀ t ∈ ts, t - t0 ≤ window) :
    ((memRun 2 60 [0, 0, 1] none).map rateLimitGate
        = [Except.ok (), Except.ok (),
           Except.error (429, "Too many requests. Please try again later.")]) ∧
    (memRun limit window (t0 :: ts) none).count false ≤ limit + 1 ∧
    (∀ e, redisLimited limit (Except.error e) = false) ∧
    (∀ n, admittedCount limit ((List.range' 1 n).map Except.ok) ≤ limit + 1) := by
  refine ⟨by rfl, ?_, fun e => rfl,
    fun n => le_trans (redis_window_bound limit n 1) (by omega)⟩
  simp only [memRun, memStep]
  rw [List.count_cons_self]
  have := memRun_bound limit window t0 ts 1 h (le_refl 1) (by omega)
  omega

/-- **C8 counterexample.** A window of four Redis-failing requests admits
all four under the fail-open policy, exceeding `limit + 1 = 3`: the claimed
bound does not hold over windows with backing-store errors. -/
theorem rate_limiter_fail_open_unbounded :
    admittedCount 2 (List.replicate 4 (Except.error "connection refused")) = 4 ∧
    ¬ (admittedCount 2 (List.replicate 4 (Except.error "connection refused"))
        ≤ 2 + 1) := by
  decide

/-- Witness for `rate_limiter_fixed_window` at limit 2, window 60,
times 0, 0, 1. -/
theorem rate_limiter_fixed_window_witness :
    (memRun 2 60 [0, 0, 1] none).count false ≤ 2 + 1 :=
  (rate_limiter_fixed_window 2 60 0 [0, 1] (by decide)).2.1

end YogaRag
